import Mathlib

/-!
Verification of the Elevate breath-animation / binaural-audio core.

This file shallowly embeds the Python classes of the repository
(`elevate/backend/animations/bouncy_ball.py`, `elevate/backend/audio_stimulus.py`,
`elevate/backend/visual_stimulus.py`, `elevate/backend/state_induction_controller.py`)
as Lean structures with explicit state passing.  Real-valued Python floats are
modelled as rationals (`ℚ`); Python's float `%` is modelled by the
floor-based `pymod`; side effects (Cairo drawing calls, GStreamer property
sets, log prints) are reified as explicit command/effect lists; GLib timers
are modelled as an explicit scheduler state.  `math.cos` is kept abstract as a
function parameter `cosFn : ℚ → ℚ`, since no verified property depends on its
values; `math.pi` is the exact rational value of the IEEE-754 double constant.
-/

/-- Python float modulo (`t % m`): floor-based remainder, `t - m * ⌊t / m⌋`.
Matches CPython semantics for every nonzero modulus `m`. -/
def pymod (t m : ℚ) : ℚ := t - m * ⌊t / m⌋

/-- The IEEE-754 double value of `math.pi`, as an exact rational. -/
def math_pi : ℚ := 884279719003555 / 281474976710656

/-- RGB color triple, components as exact rationals (Python float triple). -/
structure Color where
  r : ℚ
  g : ℚ
  b : ℚ
deriving Repr, DecidableEq

/-- The 4 breath-phase durations `(inhale, hold1, exhale, hold2)`
stored in `self.phase_durations`. -/
structure BreathCycle where
  d0 : ℚ
  d1 : ℚ
  d2 : ℚ
  d3 : ℚ
deriving Repr, DecidableEq

/-- Duration of phase `i`: Python `self.phase_durations[phase_index]`. -/
def BreathCycle.dur (c : BreathCycle) : Fin 4 → ℚ
  | 0 => c.d0
  | 1 => c.d1
  | 2 => c.d2
  | 3 => c.d3

/-- Python `sum(self.phase_durations)`. -/
def BreathCycle.total (c : BreathCycle) : ℚ := c.d0 + c.d1 + c.d2 + c.d3

/-- Python `sum(self.phase_durations[:phase_index])`: the start offset of phase `i`. -/
def BreathCycle.start (c : BreathCycle) : Fin 4 → ℚ
  | 0 => 0
  | 1 => c.d0
  | 2 => c.d0 + c.d1
  | 3 => c.d0 + c.d1 + c.d2

/-- Cairo drawing operations issued by `BouncyBallAnimation.render`, reified
as data (one constructor per Cairo context call made by the source). -/
inductive DrawCmd where
  | set_source_rgb (r g b : ℚ)
  | paint
  | arc (cx cy radius angle1 angle2 : ℚ)
  | fill
  | select_font_face (family : String) (slant weight : ℕ)
  | set_font_size (size : ℚ)
  | text_extents (s : String)
  | move_to (x y : ℚ)
  | show_text (s : String)
deriving Repr, DecidableEq

/-- State of a `BouncyBallAnimation` object (fields of `__init__`, with the
`None`-initialized caches as `Option`). -/
structure BouncyBall where
  breath_color : Color
  hold_color : Color
  background : Color
  pulse_factor : ℚ
  fade_duration : ℚ
  phase_durations : BreathCycle
  phase_cues : List (Option String)
  t : ℚ
  total_cycle : Option ℚ
  phase_ends : Option (List ℚ)
  fade_half : Option ℚ
  last_width : Option ℚ
  last_height : Option ℚ
  last_max_radius : Option ℚ
  last_phase : Option ℕ
  last_cue_text : Option String
deriving Repr, DecidableEq

/-- A fresh `BouncyBallAnimation()` with default arguments (THETA color
scheme, `pulse_factor=0.05`, `fade_duration=0.5`, durations `(4,4,4,4)`,
cues `["Inhale","Hold","Exhale","Hold"]`, all caches `None`). -/
def BouncyBall.init : BouncyBall where
  breath_color := ⟨2/10, 6/10, 9/10⟩
  hold_color := ⟨6/10, 4/10, 8/10⟩
  background := ⟨2/10, 2/10, 6/10⟩
  pulse_factor := 1/20
  fade_duration := 1/2
  phase_durations := ⟨4, 4, 4, 4⟩
  phase_cues := [some "Inhale", some "Hold", some "Exhale", some "Hold"]
  t := 0
  total_cycle := none
  phase_ends := none
  fade_half := none
  last_width := none
  last_height := none
  last_max_radius := none
  last_phase := none
  last_cue_text := none

/-- `BouncyBallAnimation._update_cached_values`: recompute `_total_cycle`,
`_fade_half` and `_phase_ends` only when `_total_cycle is None`. -/
def BouncyBall.update_cached_values (b : BouncyBall) : BouncyBall :=
  if b.total_cycle = none then
    { b with
      total_cycle := some b.phase_durations.total
      fade_half := some (b.fade_duration / 2)
      phase_ends := some [0, b.phase_durations.d0,
        b.phase_durations.d0 + b.phase_durations.d1,
        b.phase_durations.d0 + b.phase_durations.d1 + b.phase_durations.d2,
        b.phase_durations.d0 + b.phase_durations.d1 + b.phase_durations.d2
          + b.phase_durations.d3] }
  else b

/-- `BouncyBallAnimation.reset`: zero the time counter, clear the phase cache. -/
def BouncyBall.reset (b : BouncyBall) : BouncyBall :=
  { b with t := 0, last_phase := none }

/-- `BouncyBallAnimation.set_breath_cycle`: replaces the 4 phase durations.
Note: the source mutates only `self.phase_durations`; it does not touch the
`_total_cycle` / `_phase_ends` / `_fade_half` caches. -/
def BouncyBall.set_breath_cycle (b : BouncyBall) (cycle : BreathCycle) : BouncyBall :=
  { b with phase_durations := cycle }

/-- `BouncyBallAnimation.set_phase_cues`. -/
def BouncyBall.set_phase_cues (b : BouncyBall)
    (cues : Option String × Option String × Option String × Option String) : BouncyBall :=
  { b with phase_cues := [cues.1, cues.2.1, cues.2.2.1, cues.2.2.2] }

/-- `BouncyBallAnimation.is_phase_active(phase_index, t)`. -/
def BouncyBall.is_phase_active (b : BouncyBall) (phase_index : Fin 4) (t : ℚ) : Bool :=
  if b.phase_durations.total = 0 then false
  else
    decide (b.phase_durations.start phase_index ≤ pymod t b.phase_durations.total ∧
      pymod t b.phase_durations.total <
        b.phase_durations.start phase_index + b.phase_durations.dur phase_index)

/-- `BouncyBallAnimation.update(dt, width, height)`: advance `self._t`
(`width`/`height` accepted but unused). -/
def BouncyBall.update (b : BouncyBall) (dt _width _height : ℚ) : BouncyBall :=
  { b with t := b.t + dt }

/-- `BouncyBallAnimation.phase1`: inhale, radius grows linearly. -/
def BouncyBall.phase1 (b : BouncyBall) (t max_radius : ℚ) : ℚ × Color :=
  let duration := b.phase_durations.d0
  if duration = 0 then (0, b.breath_color)
  else ((t / duration) * max_radius * (1 - b.pulse_factor), b.breath_color)

/-- `BouncyBallAnimation.phase2`: hold-high, cosine pulsation
(`math.cos` abstracted as `cosFn`). -/
def BouncyBall.phase2 (cosFn : ℚ → ℚ) (b : BouncyBall) (t max_radius : ℚ) : ℚ × Color :=
  let pulse_time := t - b.phase_durations.d0
  let pulse := 1/2 * (1 + cosFn (2 * math_pi * pulse_time / 1 + math_pi))
  let min_radius := max_radius * (1 - b.pulse_factor)
  (min_radius + (max_radius - min_radius) * pulse, b.hold_color)

/-- `BouncyBallAnimation.phase3`: exhale, radius shrinks linearly. -/
def BouncyBall.phase3 (b : BouncyBall) (t max_radius : ℚ) : ℚ × Color :=
  let phase_start := b.phase_durations.d0 + b.phase_durations.d1
  let duration := b.phase_durations.d2
  if duration = 0 then (0, b.breath_color)
  else ((1 - (t - phase_start) / duration) * max_radius * (1 - b.pulse_factor),
    b.breath_color)

/-- `BouncyBallAnimation.phase4`: hold-low, cosine pulsation near zero radius. -/
def BouncyBall.phase4 (cosFn : ℚ → ℚ) (b : BouncyBall) (t max_radius : ℚ) : ℚ × Color :=
  let phase_start := b.phase_durations.d0 + b.phase_durations.d1 + b.phase_durations.d2
  let pulse_time := t - phase_start
  let pulse := 1/2 * (1 + cosFn (2 * math_pi * pulse_time / 1 + math_pi))
  (max_radius * b.pulse_factor * pulse, b.hold_color)

/-- `BouncyBallAnimation.interpolate_color(color1, color2, alpha)`. -/
def BouncyBall.interpolate_color (color1 color2 : Color) (alpha : ℚ) : Color :=
  ⟨color1.r + (color2.r - color1.r) * alpha,
   color1.g + (color2.g - color1.g) * alpha,
   color1.b + (color2.b - color1.b) * alpha⟩

/-- The `for i, end in enumerate(self._phase_ends[1:], 1): ...` fade loop in
`render`: the first boundary whose symmetric fade window contains `t` yields
an interpolated color (`break`); otherwise `None`. -/
def BouncyBall.fade_loop (b : BouncyBall) (t fade_half : ℚ) :
    List ℚ → ℕ → Option Color
  | [], _ => none
  | e :: rest, i =>
    if e - fade_half < t ∧ t < e + fade_half then
      let alpha := (t - (e - fade_half)) / b.fade_duration
      let prev_color := if i % 2 = 1 then b.breath_color else b.hold_color
      let next_color := if i % 2 = 1 then b.hold_color else b.breath_color
      some (BouncyBall.interpolate_color prev_color next_color alpha)
    else b.fade_loop t fade_half rest (i + 1)

/-- The `current_phase` loop in `render` (`enumerate(self._phase_ends[1:])`,
defaulting to phase `0` when no boundary bounds `t`). -/
def phase_index_loop (t : ℚ) : List ℚ → ℕ → Option ℕ
  | [], _ => none
  | e :: rest, i => if t ≤ e then some i else phase_index_loop t rest (i + 1)

/-- The phase-index → canonical-cue-text dict in `_render_phase_cue`. -/
def canonical_cue_text : ℕ → Option String
  | 0 => some "Inhale"
  | 1 => some "Hold"
  | 2 => some "Exhale"
  | 3 => some "Hold"
  | _ => none

/-- `BouncyBallAnimation._render_phase_cue`: draws nothing when the stored cue
differs from the canonical label; otherwise emits the white bold-font text
setup and (for a non-`None` cue) the positioned cue text. -/
def BouncyBall.render_phase_cue (b : BouncyBall) (phase_index : ℕ)
    (_width height : ℚ) : List DrawCmd :=
  if b.phase_cues.getD phase_index none ≠ canonical_cue_text phase_index then []
  else
    let setup := [DrawCmd.set_source_rgb 1 1 1,
      DrawCmd.select_font_face "Sans" 0 1, DrawCmd.set_font_size 48]
    match b.phase_cues.getD phase_index none with
    | none => setup
    | some cue => setup ++ [DrawCmd.text_extents cue,
        DrawCmd.move_to 12 (height - 20), DrawCmd.show_text cue]

/-- The `max_radius` cache block of `render` (lines "Cache max_radius
calculation"): refresh `_last_width` / `_last_height` / `_last_max_radius`
when the viewport size changed. -/
def BouncyBall.cache_max_radius (b : BouncyBall) (width height : ℚ) : BouncyBall :=
  if b.last_width ≠ some width ∨ b.last_height ≠ some height then
    { b with
      last_width := some width
      last_height := some height
      last_max_radius := some (min width height / 2) }
  else b

/-- The phase dispatch of `render` (radius and base color from the current
phase, chosen by comparing `t` against `self._phase_ends[1..3]`). -/
def BouncyBall.phase_radius_color (cosFn : ℚ → ℚ) (b : BouncyBall)
    (t max_radius : ℚ) : ℚ × Color :=
  let ends := b.phase_ends.getD []
  if t ≤ ends.getD 1 0 then b.phase1 t max_radius
  else if t ≤ ends.getD 2 0 then BouncyBall.phase2 cosFn b t max_radius
  else if t ≤ ends.getD 3 0 then b.phase3 t max_radius
  else BouncyBall.phase4 cosFn b t max_radius

/-- The color cross-fade block of `render`: the boundary fade loop followed by
the wrap-around (`t` near 0) fade, which overrides the loop's result. -/
def BouncyBall.faded_color (b : BouncyBall) (t : ℚ) (base : Color) : Color :=
  let fade_half := b.fade_half.getD 0
  let color := (b.fade_loop t fade_half ((b.phase_ends.getD []).drop 1) 1).getD base
  if t < fade_half then
    BouncyBall.interpolate_color b.hold_color b.breath_color
      ((t + fade_half) / b.fade_duration)
  else color

/-- The cue block of `render`: decides whether the phase cue is drawn this
frame and performs the `_last_phase` / `_last_cue_text` caching. -/
def BouncyBall.cue_branch (b : BouncyBall) (current_phase : ℕ) : BouncyBall × Bool :=
  let cue := b.phase_cues.getD current_phase none
  if cue ≠ none ∧ b.last_phase ≠ some current_phase then
    ({ b with last_phase := some current_phase, last_cue_text := cue }, true)
  else if cue ≠ none ∧ b.last_phase = some current_phase ∧ b.last_cue_text = cue then
    (b, true)
  else (b, false)

/-- `BouncyBallAnimation.render(cr, width, height, now_s)`, returning the
mutated animation state and the list of Cairo calls issued (the drawing
context is modelled with its full capability set, so the `hasattr` guards on
`paint`/`fill` are taken; `now_s` is accepted but unused by the source, which
reads `self._t`).  The dead local `phase_ends` rebuilt at lines 354-356 of the
source is not bound since it is never read; the blocks of the method body are
the named definitions above. -/
def BouncyBall.render (cosFn : ℚ → ℚ) (b₀ : BouncyBall) (width height : ℚ)
    (_now_s : ℚ) : BouncyBall × List DrawCmd :=
  let b := b₀.update_cached_values
  if b.total_cycle = some 0 then
    (b, [DrawCmd.set_source_rgb b.background.r b.background.g b.background.b,
      DrawCmd.paint])
  else
    let total := b.total_cycle.getD 0
    let t := pymod b.t total
    let b := b.cache_max_radius width height
    let max_radius := b.last_max_radius.getD 0
    let bg_cmds := [DrawCmd.set_source_rgb b.background.r b.background.g
      b.background.b, DrawCmd.paint]
    let rc := BouncyBall.phase_radius_color cosFn b t max_radius
    let color := b.faded_color t rc.2
    let circle_cmds := [DrawCmd.set_source_rgb color.r color.g color.b,
      DrawCmd.arc (width / 2) (height / 2) rc.1 0 (2 * math_pi), DrawCmd.fill]
    let current_phase := (phase_index_loop t ((b.phase_ends.getD []).drop 1) 0).getD 0
    let cb := b.cue_branch current_phase
    (cb.1, bg_cmds ++ circle_cmds ++
      (if cb.2 then b.render_phase_cue current_phase width height else []))

/-- Radius carried by the first `arc` command of a command list, if any. -/
def arc_radius : List DrawCmd → Option ℚ
  | [] => none
  | DrawCmd.arc _ _ radius _ _ :: _ => some radius
  | _ :: rest => arc_radius rest

/-- GStreamer pipeline states used by the source. -/
inductive GstState where
  | null
  | paused
  | playing
deriving Repr, DecidableEq

/-- Which oscillator a `set_property("freq", ...)` call targets. -/
inductive Chan where
  | left
  | right
deriving Repr, DecidableEq

/-- Externally observable effects of `AudioStimulus` methods: GStreamer
property writes / state transitions on the audio backend and `print` logs. -/
inductive AudioEffect where
  | set_freq (c : Chan) (v : ℚ)
  | set_pipeline_state (s : GstState)
  | log (msg : String)
deriving Repr, DecidableEq

/-- The GStreamer/GLib environment as seen by `AudioStimulus`: whether
`Gst.ElementFactory.make(name, ...)` succeeds for each factory name, and
whether `set_property` calls on existing elements succeed (when they raise,
the source's `except` clauses catch and log). -/
structure Backend where
  canMake : String → Bool
  freq_set_ok : Bool
  volume_set_ok : Bool

/-- State of an `AudioStimulus` object: the scalar parameters of `__init__`
plus, for each GStreamer element attribute, whether it currently holds an
element (Python `is not None`). -/
structure AudioStimulus where
  base_frequency : ℚ
  channel_offset : ℚ
  is_playing : Bool
  sample_rate : ℕ
  buffer_size : ℕ
  volume : ℚ
  pending_frequency_update : Bool
  update_timeout_id : Option ℕ
  pipeline : Bool
  source_left : Bool
  source_right : Bool
  mixer : Bool
  audioconvert : Bool
  volume_element : Bool
  sink : Bool
deriving Repr, DecidableEq

/-- A fresh `AudioStimulus()` (defaults 30 Hz base, 10 Hz offset, volume 0.5,
no pipeline, no pending update). -/
def AudioStimulus.init : AudioStimulus where
  base_frequency := 30
  channel_offset := 10
  is_playing := false
  sample_rate := 44100
  buffer_size := 1024
  volume := 1/2
  pending_frequency_update := false
  update_timeout_id := none
  pipeline := false
  source_left := false
  source_right := false
  mixer := false
  audioconvert := false
  volume_element := false
  sink := false

/-- `AudioStimulus._create_pipeline`: assigns the pipeline and element
attributes (element creation succeeding per `Backend.canMake`), then raises
`RuntimeError("Failed to create GStreamer elements")` when any is missing.
The returned `Option String` is the in-flight exception; the state keeps the
assignments made before the raise.  On success the source then links the
graph, configures defaults and sets the initial frequencies on the element
handles (graph wiring is not tracked beyond element existence). -/
def AudioStimulus.create_pipeline (bk : Backend) (s : AudioStimulus) :
    AudioStimulus × Option String :=
  let s := { s with
    pipeline := true
    source_left := bk.canMake "audiotestsrc"
    source_right := bk.canMake "audiotestsrc"
    mixer := bk.canMake "audiomixer"
    audioconvert := bk.canMake "audioconvert"
    volume_element := bk.canMake "volume"
    sink := bk.canMake "autoaudiosink" }
  if ¬(s.pipeline ∧ s.source_left ∧ s.source_right ∧ s.mixer ∧ s.audioconvert
      ∧ s.volume_element ∧ s.sink) then
    (s, some "Failed to create GStreamer elements")
  else
    (s, none)

/-- `AudioStimulus.play`: lazily builds the pipeline, logs the initiation
message, best-effort applies the current frequencies (errors caught and
logged), sets the pipeline PLAYING and flips `is_playing`.  The whole body
sits in `try/except (RuntimeError, GLib.Error)`, so a construction failure is
caught here and logged as "Error starting audio stream: ...": the third
component (the exception escaping to the caller) is always `none`. -/
def AudioStimulus.play (bk : Backend) (s : AudioStimulus) :
    AudioStimulus × List AudioEffect × Option String :=
  if s.is_playing then (s, [], none)
  else
    let created := if ¬s.pipeline then s.create_pipeline bk else (s, none)
    match created with
    | (s₁, some e) =>
      (s₁, [AudioEffect.log ("Error starting audio stream: " ++ e)], none)
    | (s₁, none) =>
      let left_freq := s₁.base_frequency
      let right_freq := s₁.base_frequency + s₁.channel_offset
      let log_play := [AudioEffect.log "Play initiated..."]
      let freq_effects :=
        if s₁.source_left ∧ s₁.source_right then
          if bk.freq_set_ok then
            [AudioEffect.set_freq Chan.left left_freq,
             AudioEffect.set_freq Chan.right right_freq]
          else [AudioEffect.log "Pipeline error setting frequencies on play"]
        else []
      ({ s₁ with is_playing := true },
        log_play ++ freq_effects ++ [AudioEffect.set_pipeline_state GstState.playing],
        none)

/-- `AudioStimulus.pause`. -/
def AudioStimulus.pause (s : AudioStimulus) : AudioStimulus × List AudioEffect :=
  if s.is_playing ∧ s.pipeline then
    ({ s with is_playing := false }, [AudioEffect.set_pipeline_state GstState.paused])
  else (s, [])

/-- `AudioStimulus.stop`: tear the pipeline down to NULL and drop the handle. -/
def AudioStimulus.stop (s : AudioStimulus) : AudioStimulus × List AudioEffect :=
  if s.pipeline then
    ({ s with pipeline := false, is_playing := false },
      [AudioEffect.set_pipeline_state GstState.null])
  else ({ s with is_playing := false }, [])

/-- `AudioStimulus.set_volume(value)`: clamp to `[0, 1]`, store, then
best-effort apply to the volume element (errors caught and logged). -/
def AudioStimulus.set_volume (bk : Backend) (s : AudioStimulus) (value : ℚ) :
    AudioStimulus × List AudioEffect :=
  let s := { s with volume := max 0 (min 1 value) }
  if s.volume_element then
    if bk.volume_set_ok then (s, [])
    else (s, [AudioEffect.log "Pipeline error setting volume"])
  else (s, [])

/-- `AudioStimulus.get_volume`. -/
def AudioStimulus.get_volume (s : AudioStimulus) : ℚ := s.volume

/-- `AudioStimulus._apply_frequency_update`: the debounce-timer callback.
Bails out (clearing the timer id) when no update is pending or an oscillator
handle is missing; otherwise brackets the two frequency property writes in a
PAUSED/PLAYING transition pair when currently playing, logs, clears the
pending flag and the timer id.  Property-write errors are caught: the state
reaches the same cleared flags, with only a log emitted. -/
def AudioStimulus.apply_frequency_update (bk : Backend) (s : AudioStimulus) :
    AudioStimulus × List AudioEffect :=
  if ¬s.pending_frequency_update ∨ ¬s.source_left ∨ ¬s.source_right then
    ({ s with update_timeout_id := none }, [])
  else
    let was_playing := s.is_playing
    let pause_effects :=
      if was_playing then [AudioEffect.set_pipeline_state GstState.paused] else []
    let body_effects :=
      if bk.freq_set_ok then
        [AudioEffect.set_freq Chan.left s.base_frequency,
         AudioEffect.set_freq Chan.right (s.base_frequency + s.channel_offset)]
        ++ (if was_playing then [AudioEffect.set_pipeline_state GstState.playing] else [])
        ++ [AudioEffect.log "Applied frequency update"]
      else [AudioEffect.log "Pipeline error applying frequency update"]
    ({ s with pending_frequency_update := false, update_timeout_id := none },
      pause_effects ++ body_effects)

/-- The GLib main-loop timeout sources owned by one `AudioStimulus`
(`GLib.timeout_add` / `GLib.source_remove`): the ids currently scheduled and
a fresh-id counter (GLib source ids are positive and never reused). -/
structure GlibTimers where
  next_id : ℕ
  pending : List ℕ
deriving Repr, DecidableEq

/-- A main loop with no scheduled sources (ids start at 1). -/
def GlibTimers.init : GlibTimers := ⟨1, []⟩

/-- An `AudioStimulus` object together with its GLib timeout sources. -/
structure AudioSys where
  st : AudioStimulus
  timers : GlibTimers
deriving Repr, DecidableEq

/-- `AudioStimulus._schedule_frequency_update`: remove the previously
scheduled timeout (if any), then schedule a fresh 100 ms timeout and remember
its id. -/
def AudioSys.schedule_frequency_update (sys : AudioSys) : AudioSys :=
  let timers :=
    match sys.st.update_timeout_id with
    | some i => { sys.timers with pending := sys.timers.pending.erase i }
    | none => sys.timers
  let fresh := timers.next_id
  { st := { sys.st with update_timeout_id := some fresh }
    timers := { next_id := fresh + 1, pending := timers.pending ++ [fresh] } }

/-- A frequency-parameter mutation arriving from the UI: the
`base_frequency` / `channel_offset` property setters. -/
inductive FreqEvent where
  | setBase (v : ℚ)
  | setOffset (v : ℚ)
deriving Repr, DecidableEq

/-- The `base_frequency` / `channel_offset` setters: store the value, mark the
update pending, (re)start the debounce timer.  No backend effect is emitted
here — application only happens in the timer callback. -/
def AudioSys.step_set (sys : AudioSys) (e : FreqEvent) : AudioSys :=
  match e with
  | FreqEvent.setBase v =>
    AudioSys.schedule_frequency_update
      { sys with st := { sys.st with base_frequency := v, pending_frequency_update := true } }
  | FreqEvent.setOffset v =>
    AudioSys.schedule_frequency_update
      { sys with st := { sys.st with channel_offset := v, pending_frequency_update := true } }

/-- Run a burst of setter calls (all within one debounce window, so the timer
never fires in between). -/
def AudioSys.run_sets (sys : AudioSys) (es : List FreqEvent) : AudioSys :=
  es.foldl AudioSys.step_set sys

/-- The debounce timer expiring: GLib dispatches the (single) scheduled
timeout, runs `_apply_frequency_update`, and removes the source since the
callback returns `False`. -/
def AudioSys.fire_timer (bk : Backend) (sys : AudioSys) : AudioSys × List AudioEffect :=
  match sys.timers.pending with
  | [] => (sys, [])
  | _ :: rest =>
    let applied := AudioStimulus.apply_frequency_update bk sys.st
    ({ st := applied.1, timers := { sys.timers with pending := rest } }, applied.2)

/-- The frequency property writes reaching the audio backend, in order
(`set_property("freq", ...)` calls extracted from an effect trace). -/
def freq_sets (es : List AudioEffect) : List (Chan × ℚ) :=
  es.filterMap fun e =>
    match e with
    | AudioEffect.set_freq c v => some (c, v)
    | _ => none

/-- Python `x or 0.0` applied to the `Optional[float]` field `_elapsed_time`
(`None` and `0.0` are both falsy, so both map to `0.0`). -/
def py_or_zero : Option ℚ → ℚ
  | none => 0
  | some v => if v = 0 then 0 else v

/-- State of a `StateInductionController` (playback-timing fields; the
embedded audio/visual stimuli are tracked separately by their own models, and
the settings bindings are external wiring).  Monotonic wall-clock readings
(`time.monotonic()`) are passed to each operation explicitly. -/
structure StateInductionController where
  is_playing : Bool
  is_paused : Bool
  elapsed_time_acc : Option ℚ
  start_time : Option ℚ
deriving Repr, DecidableEq

/-- A fresh `StateInductionController()`. -/
def StateInductionController.init : StateInductionController where
  is_playing := false
  is_paused := false
  elapsed_time_acc := none
  start_time := none

/-- `StateInductionController.play` at monotonic time `now`: start stimuli,
capture the start timestamp, set the flags.  No-op when already playing. -/
def StateInductionController.play (c : StateInductionController) (now : ℚ) :
    StateInductionController :=
  if ¬c.is_playing then
    { c with is_playing := true, start_time := some now, is_paused := false }
  else c

/-- `StateInductionController.pause`: pause the stimuli and flip the flags.
The source does not touch `_elapsed_time` or `_start_time` here. -/
def StateInductionController.pause (c : StateInductionController) :
    StateInductionController :=
  if c.is_playing then { c with is_playing := false, is_paused := true } else c

/-- `StateInductionController.stop` at monotonic time `now`: stop the stimuli,
clear the flags, and fold `now - _start_time` into `_elapsed_time` when a
start timestamp is present. -/
def StateInductionController.stop (c : StateInductionController) (now : ℚ) :
    StateInductionController :=
  let c := { c with is_playing := false, is_paused := false }
  match c.start_time with
  | some s =>
    { c with
      elapsed_time_acc :=
        some (match c.elapsed_time_acc with
          | none => now - s
          | some e => e + (now - s))
      start_time := none }
  | none => c

/-- The `elapsed_time` read-only property, evaluated at monotonic time `now`:
the accumulated total (`_elapsed_time or 0.0`) plus, when a start timestamp is
set, the time since it. -/
def StateInductionController.elapsed_time (c : StateInductionController)
    (now : ℚ) : ℚ :=
  let elapsed := py_or_zero c.elapsed_time_acc
  match c.start_time with
  | none => elapsed
  | some s => elapsed + (now - s)

/-- State of a `VisualStimulus` object (`__init__` fields; the widget handle
and the animation object are tracked by presence, the animation-loop GLib
timeout by its optional source id). -/
structure VisualStimulus where
  enable_visual_stimuli : Bool
  stimuli_type : ℤ
  is_playing : Bool
  animation_source : Option ℕ
  widget : Bool
  last_ts : Option ℚ
  animation : Bool
  time : ℚ
deriving Repr, DecidableEq

/-- A fresh `VisualStimulus()`. -/
def VisualStimulus.init : VisualStimulus where
  enable_visual_stimuli := false
  stimuli_type := 0
  is_playing := false
  animation_source := none
  widget := false
  last_ts := none
  animation := false
  time := 0

/-- `VisualStimulus._stop_animation`: `if self._animation_source:` uses Python
truthiness (`None` and `0` are falsy), then removes the GLib source and clears
the id. -/
def VisualStimulus.stop_animation (v : VisualStimulus) : VisualStimulus :=
  if (match v.animation_source with
      | some i => decide (i ≠ 0)
      | none => false) then
    { v with animation_source := none }
  else v

/-- `VisualStimulus._start_animation` at monotonic time `now` with the fresh
GLib source id `fresh`: only schedules the 16 ms tick when none is scheduled
yet. -/
def VisualStimulus.start_animation (v : VisualStimulus) (now : ℚ) (fresh : ℕ) :
    VisualStimulus :=
  if v.animation_source = none then
    { v with last_ts := some now, animation_source := some fresh }
  else v

/-- `VisualStimulus.play`: when enabled and not playing, construct the
animation for the configured stimuli type and, if a widget is attached, start
the tick timer. -/
def VisualStimulus.play (v : VisualStimulus) (now : ℚ) (fresh : ℕ) : VisualStimulus :=
  if v.enable_visual_stimuli ∧ ¬v.is_playing then
    let v := { v with is_playing := true, animation := true }
    if v.widget then v.start_animation now fresh else v
  else v

/-- `VisualStimulus.pause`: when playing, clear the playing flag, reset the
accumulated animation time to 0, and stop the tick timer. -/
def VisualStimulus.pause (v : VisualStimulus) : VisualStimulus :=
  if v.is_playing then
    VisualStimulus.stop_animation { v with is_playing := false, time := 0 }
  else v

/-- `VisualStimulus.stop`: unconditionally clear the playing flag, reset the
accumulated animation time to 0, stop the tick timer (and queue a redraw on
the widget, a pure rendering side effect). -/
def VisualStimulus.stop (v : VisualStimulus) : VisualStimulus :=
  VisualStimulus.stop_animation { v with is_playing := false, time := 0 }

/-- Consistency between an `AudioStimulus`'s remembered debounce-timer id and
the GLib scheduler: either nothing is remembered and nothing is scheduled, or
exactly the remembered id is scheduled. -/
def AudioSys.timer_consistent (sys : AudioSys) : Prop :=
  (sys.st.update_timeout_id = none ∧ sys.timers.pending = []) ∨
  (∃ i, sys.st.update_timeout_id = some i ∧ sys.timers.pending = [i])

/-- A GStreamer environment where every element factory works and property
writes succeed. -/
def backend_ok : Backend := ⟨fun _ => true, true, true⟩

/-- A GStreamer environment where the `audiomixer` element factory is
unavailable (as on a system missing the corresponding plugin), so audio-graph
construction fails. -/
def backend_no_mixer : Backend := ⟨fun nm => nm != "audiomixer", true, true⟩

/-- A concrete stand-in for `math.cos` used when evaluating the animation at
inputs whose behavior does not depend on the cosine. -/
def cos_stub : ℚ → ℚ := fun _ => 0

/-- Scenario state for the stale-cache behavior of `set_breath_cycle`: a fresh
animation rendered once at 100×100 (populating the `_total_cycle = 16.0`
cache), then given the all-zero breath cycle. -/
def stale_cache_anim : BouncyBall :=
  (BouncyBall.render cos_stub BouncyBall.init 100 100 0).1.set_breath_cycle ⟨0, 0, 0, 0⟩

/-- The `BouncyBallAnimation`-with-breath-cycle `(2.0, 1.0, 2.0, 1.0)` and
`pulse_factor = 0.05` of the reset scenario. -/
def reset_scenario_anim : BouncyBall := BouncyBall.init.set_breath_cycle ⟨2, 1, 2, 1⟩

/-- The playback-coordinator scenario `play` at monotonic time 0, `pause` at
time 5 (the source's `pause` reads no clock), `stop` at time 12. -/
def play_pause_stop_controller : StateInductionController :=
  ((StateInductionController.init.play 0).pause).stop 12

/-- The reset-scenario animation state at accumulated time `tq`, with the
render caches already filled for a `w × h` viewport (the state `render`
reaches after `_update_cached_values` and the `max_radius` cache block). -/
def reset_scenario_cached (tq w h : ℚ) : BouncyBall where
  breath_color := ⟨2/10, 6/10, 9/10⟩
  hold_color := ⟨6/10, 4/10, 8/10⟩
  background := ⟨2/10, 2/10, 6/10⟩
  pulse_factor := 1/20
  fade_duration := 1/2
  phase_durations := ⟨2, 1, 2, 1⟩
  phase_cues := [some "Inhale", some "Hold", some "Exhale", some "Hold"]
  t := tq
  total_cycle := some 6
  phase_ends := some [0, 2, 3, 5, 6]
  fade_half := some (1/4)
  last_width := some w
  last_height := some h
  last_max_radius := some (min w h / 2)
  last_phase := none
  last_cue_text := none

theorem pymod_eq_mul_fract (t m : ℚ) (hm : m ≠ 0) :
    pymod t m = m * Int.fract (t / m) := by
  unfold pymod Int.fract
  field_simp

theorem pymod_nonneg (t m : ℚ) (hm : 0 < m) : 0 ≤ pymod t m := by
  rw [pymod_eq_mul_fract t m (ne_of_gt hm)]
  exact mul_nonneg hm.le (Int.fract_nonneg _)

theorem pymod_lt (t m : ℚ) (hm : 0 < m) : pymod t m < m := by
  rw [pymod_eq_mul_fract t m (ne_of_gt hm)]
  calc m * Int.fract (t / m) < m * 1 :=
        (mul_lt_mul_left hm).mpr (Int.fract_lt_one _)
    _ = m := mul_one m

theorem update_cached_values_background (b : BouncyBall) :
    b.update_cached_values.background = b.background := by
  unfold BouncyBall.update_cached_values
  split <;> rfl

theorem update_cached_values_of_cached (b : BouncyBall) (h : b.total_cycle ≠ none) :
    b.update_cached_values = b := by
  unfold BouncyBall.update_cached_values
  simp [h]

theorem set_breath_cycle_total_cycle (b : BouncyBall) (c : BreathCycle) :
    (b.set_breath_cycle c).total_cycle = b.total_cycle := rfl

theorem update_total_cycle (b : BouncyBall) (dt w h : ℚ) :
    (b.update dt w h).total_cycle = b.total_cycle := rfl

theorem cache_max_radius_total_cycle (b : BouncyBall) (w h : ℚ) :
    (b.cache_max_radius w h).total_cycle = b.total_cycle := by
  unfold BouncyBall.cache_max_radius
  split <;> rfl

theorem cue_branch_total_cycle (b : BouncyBall) (cp : ℕ) :
    (b.cue_branch cp).1.total_cycle = b.total_cycle := by
  unfold BouncyBall.cue_branch
  dsimp only
  split
  · rfl
  · split <;> rfl

theorem render_state_total_cycle (cosFn : ℚ → ℚ) (b : BouncyBall) (w h now : ℚ) :
    (BouncyBall.render cosFn b w h now).1.total_cycle =
      b.update_cached_values.total_cycle := by
  unfold BouncyBall.render
  dsimp only
  split
  · rfl
  · rw [cue_branch_total_cycle, cache_max_radius_total_cycle]

theorem render_arc_of_nonzero_total (cosFn : ℚ → ℚ) (b : BouncyBall) (w h now : ℚ)
    (hz : b.update_cached_values.total_cycle ≠ some 0) :
    arc_radius (BouncyBall.render cosFn b w h now).2 ≠ none := by
  unfold BouncyBall.render
  dsimp only
  rw [if_neg hz]
  simp [arc_radius]

/-- C8: color interpolation is exact at the endpoints: for all color triples
`A` and `B`, `interpolate_color(A, B, 0) = A` and `interpolate_color(A, B, 1) = B`
exactly. -/
theorem interpolate_color_endpoints (A B : Color) :
    BouncyBall.interpolate_color A B 0 = A ∧ BouncyBall.interpolate_color A B 1 = B := by
  obtain ⟨r1, g1, b1⟩ := A
  obtain ⟨r2, g2, b2⟩ := B
  constructor
  · simp [BouncyBall.interpolate_color]
  · simp only [BouncyBall.interpolate_color, Color.mk.injEq]
    refine ⟨by ring, by ring, by ring⟩

/-- C9: after `set_volume(x)` the stored volume is the clamp of `x` to `[0,1]`
and `get_volume()` returns exactly `max(0, min(1, x))`, independent of whether
a volume element exists or the backend apply fails. -/
theorem set_volume_clamped_stored (bk : Backend) (s : AudioStimulus) (x : ℚ) :
    (AudioStimulus.set_volume bk s x).1.get_volume = max 0 (min 1 x) := by
  unfold AudioStimulus.set_volume AudioStimulus.get_volume
  cases hv : s.volume_element <;> cases hb : bk.volume_set_ok <;> simp [hv, hb]

/-- C1 is a code bug: the source's `pause` leaves `_start_time` set and folds
the whole wall-clock interval into `_elapsed_time` at `stop`, so the scenario
play at 0, pause at 5, stop at 12 yields `elapsed_time = 12.0` — paused time
is counted, contradicting the getter's own "adjusted for pauses" contract and
the claimed `≈ 5.0`. -/
theorem controller_elapsed_time_counts_paused_interval :
    play_pause_stop_controller.elapsed_time 12 = 12 ∧
    play_pause_stop_controller.elapsed_time 12 ≠ 5 := by
  norm_num [play_pause_stop_controller, StateInductionController.init,
    StateInductionController.play, StateInductionController.pause,
    StateInductionController.stop, StateInductionController.elapsed_time,
    py_or_zero]

/-- C5 is a code bug: `set_breath_cycle` does not invalidate the caches, so
after a render has populated them, a later `set_breath_cycle((0,0,0,0))`
leaves `_total_cycle = 16.0` stale, and the next render still draws the
circle instead of using the new durations (whose total 0 demands a
background-only frame). -/
theorem set_breath_cycle_keeps_stale_cache :
    stale_cache_anim.total_cycle = some 16 ∧
    stale_cache_anim.phase_durations.total = 0 ∧
    arc_radius (BouncyBall.render cos_stub (stale_cache_anim.update 1 100 100)
      100 100 0).2 ≠ none := by
  have h1 : stale_cache_anim.total_cycle = some 16 := by
    unfold stale_cache_anim
    rw [set_breath_cycle_total_cycle, render_state_total_cycle]
    norm_num [BouncyBall.init, BouncyBall.update_cached_values, BreathCycle.total]
  have h2 : (stale_cache_anim.update 1 100 100).total_cycle = some 16 := by
    rw [update_total_cycle, h1]
  refine ⟨h1, ?_, ?_⟩
  · norm_num [stale_cache_anim, BouncyBall.set_breath_cycle, BreathCycle.total]
  · apply render_arc_of_nonzero_total
    rw [update_cached_values_of_cached _ (by rw [h2]; exact Option.some_ne_none _), h2]
    norm_num

/-- C2 counterexample: with the `audiomixer` factory unavailable, audio-graph
construction inside `play()` does fail (`_create_pipeline` raises), yet no
error escapes `play()` to its caller — the claim that the failure is "raised
to the caller of play(), not caught and swallowed inside play()" is false. -/
theorem play_swallows_construction_error_cex :
    (AudioStimulus.play backend_no_mixer AudioStimulus.init).2.2 = none ∧
    (AudioStimulus.init.create_pipeline backend_no_mixer).2 =
      some "Failed to create GStreamer elements" := by
  decide

theorem render_arc_radius (cosFn : ℚ → ℚ) (b : BouncyBall) (w h now : ℚ)
    (hz : b.update_cached_values.total_cycle ≠ some 0) :
    arc_radius (BouncyBall.render cosFn b w h now).2 =
      some (BouncyBall.phase_radius_color cosFn
        (b.update_cached_values.cache_max_radius w h)
        (pymod b.update_cached_values.t (b.update_cached_values.total_cycle.getD 0))
        ((b.update_cached_values.cache_max_radius w h).last_max_radius.getD 0)).1 := by
  unfold BouncyBall.render
  dsimp only
  rw [if_neg hz]
  simp [arc_radius]

/-- C6: whenever the total cycle length (as cached by
`_update_cached_values`) is 0, `render` paints only the background color over
the viewport and returns early: no circle is drawn, no cue text is drawn, and
— the embedding being a total function — no exception is raised for any
input. -/
theorem render_zero_total_background_only (cosFn : ℚ → ℚ) (b : BouncyBall)
    (w h now : ℚ) (hz : b.update_cached_values.total_cycle = some 0) :
    (BouncyBall.render cosFn b w h now).2 =
      [DrawCmd.set_source_rgb b.background.r b.background.g b.background.b,
       DrawCmd.paint] := by
  unfold BouncyBall.render
  dsimp only
  rw [if_pos hz]
  rw [update_cached_values_background]

/-- Witness for C6: the fresh animation given the all-zero breath cycle
renders, at a 100×100 viewport, exactly the background paint commands. -/
theorem render_zero_total_background_only_witness :
    (BouncyBall.init.set_breath_cycle ⟨0, 0, 0, 0⟩).update_cached_values.total_cycle
        = some 0 ∧
    (BouncyBall.render cos_stub (BouncyBall.init.set_breath_cycle ⟨0, 0, 0, 0⟩)
        100 100 0).2 =
      [DrawCmd.set_source_rgb
        (BouncyBall.init.set_breath_cycle ⟨0, 0, 0, 0⟩).background.r
        (BouncyBall.init.set_breath_cycle ⟨0, 0, 0, 0⟩).background.g
        (BouncyBall.init.set_breath_cycle ⟨0, 0, 0, 0⟩).background.b,
       DrawCmd.paint] := by
  have hz : (BouncyBall.init.set_breath_cycle ⟨0, 0, 0, 0⟩).update_cached_values.total_cycle
      = some 0 := by
    norm_num [BouncyBall.init, BouncyBall.set_breath_cycle,
      BouncyBall.update_cached_values, BreathCycle.total]
  exact ⟨hz, render_zero_total_background_only cos_stub _ 100 100 0 hz⟩

/-- C7: for the `BouncyBallAnimation` with breath cycle `(2.0, 1.0, 2.0, 1.0)`
and `pulse_factor = 0.05`, the radius drawn by `render` is exactly `0.0` at
cycle time `t = 0.0`, exactly `max_radius * 0.95` at `t = 2.0` (phase-1 end),
and exactly `0.0` at `t = 5.0` (phase-3 end), with
`max_radius = min(width, height) / 2`, for every viewport. -/
theorem reset_scenario_radius_endpoints (w h : ℚ) (cosFn : ℚ → ℚ) :
    arc_radius (BouncyBall.render cosFn (reset_scenario_anim.update 0 w h)
        w h 0).2 = some 0 ∧
    arc_radius (BouncyBall.render cosFn (reset_scenario_anim.update 2 w h)
        w h 0).2 = some (min w h / 2 * (19/20)) ∧
    arc_radius (BouncyBall.render cosFn (reset_scenario_anim.update 5 w h)
        w h 0).2 = some 0 := by
  have hup : ∀ tq : ℚ, (reset_scenario_anim.update tq w h).update_cached_values =
      { reset_scenario_cached tq w h with
        last_width := none
        last_height := none
        last_max_radius := none } := by
    intro tq
    norm_num [reset_scenario_anim, BouncyBall.update, BouncyBall.set_breath_cycle,
      BouncyBall.init, BouncyBall.update_cached_values, BreathCycle.total,
      reset_scenario_cached]
  have hcache : ∀ tq : ℚ,
      ({ reset_scenario_cached tq w h with
          last_width := none
          last_height := none
          last_max_radius := none } : BouncyBall).cache_max_radius w h =
        reset_scenario_cached tq w h := by
    intro tq
    norm_num [BouncyBall.cache_max_radius, reset_scenario_cached]
    intro h1
    exact Option.noConfusion h1
  have hz : ∀ tq : ℚ,
      (reset_scenario_anim.update tq w h).update_cached_values.total_cycle ≠ some 0 := by
    intro tq
    rw [hup]
    norm_num [reset_scenario_cached]
  refine ⟨?_, ?_, ?_⟩
  · rw [render_arc_radius cosFn _ w h 0 (hz 0), hup, hcache]
    norm_num [reset_scenario_cached, pymod, BouncyBall.phase_radius_color,
      BouncyBall.phase1]
  · rw [render_arc_radius cosFn _ w h 0 (hz 2), hup, hcache]
    norm_num [reset_scenario_cached, pymod, BouncyBall.phase_radius_color,
      BouncyBall.phase1]
  · rw [render_arc_radius cosFn _ w h 0 (hz 5), hup, hcache]
    norm_num [reset_scenario_cached, pymod, BouncyBall.phase_radius_color,
      BouncyBall.phase3]

theorem BreathCycle.start_0 (c : BreathCycle) : c.start 0 = 0 := rfl

theorem BreathCycle.start_1 (c : BreathCycle) : c.start 1 = c.d0 := rfl

theorem BreathCycle.start_2 (c : BreathCycle) : c.start 2 = c.d0 + c.d1 := rfl

theorem BreathCycle.start_3 (c : BreathCycle) : c.start 3 = c.d0 + c.d1 + c.d2 := rfl

theorem BreathCycle.dur_0 (c : BreathCycle) : c.dur 0 = c.d0 := rfl

theorem BreathCycle.dur_1 (c : BreathCycle) : c.dur 1 = c.d1 := rfl

theorem BreathCycle.dur_2 (c : BreathCycle) : c.dur 2 = c.d2 := rfl

theorem BreathCycle.dur_3 (c : BreathCycle) : c.dur 3 = c.d3 := rfl

theorem breath_cycle_partition (c : BreathCycle) (_h0 : 0 ≤ c.d0) (h1 : 0 ≤ c.d1)
    (h2 : 0 ≤ c.d2) (_h3 : 0 ≤ c.d3) (x : ℚ) (hx0 : 0 ≤ x) (hxt : x < c.total) :
    ∃! i : Fin 4, c.start i ≤ x ∧ x < c.start i + c.dur i := by
  have htot : c.total = c.d0 + c.d1 + c.d2 + c.d3 := rfl
  rcases lt_or_le x c.d0 with hA | hA
  · refine ⟨0, ⟨show (0:ℚ) ≤ x from hx0, show x < 0 + c.d0 by linarith⟩, ?_⟩
    intro j hj
    fin_cases j
    · rfl
    · exact absurd (show c.d0 ≤ x from hj.1) (not_le.mpr hA)
    · exact absurd (show c.d0 + c.d1 ≤ x from hj.1) (not_le.mpr (by linarith))
    · exact absurd (show c.d0 + c.d1 + c.d2 ≤ x from hj.1) (not_le.mpr (by linarith))
  · rcases lt_or_le x (c.d0 + c.d1) with hB | hB
    · refine ⟨1, ⟨show c.d0 ≤ x from hA, show x < c.d0 + c.d1 from hB⟩, ?_⟩
      intro j hj
      fin_cases j
      · exact absurd (show x < 0 + c.d0 from hj.2) (not_lt.mpr (by linarith))
      · rfl
      · exact absurd (show c.d0 + c.d1 ≤ x from hj.1) (not_le.mpr hB)
      · exact absurd (show c.d0 + c.d1 + c.d2 ≤ x from hj.1) (not_le.mpr (by linarith))
    · rcases lt_or_le x (c.d0 + c.d1 + c.d2) with hC | hC
      · refine ⟨2, ⟨show c.d0 + c.d1 ≤ x from hB, show x < c.d0 + c.d1 + c.d2 from hC⟩, ?_⟩
        intro j hj
        fin_cases j
        · exact absurd (show x < 0 + c.d0 from hj.2) (not_lt.mpr (by linarith))
        · exact absurd (show x < c.d0 + c.d1 from hj.2) (not_lt.mpr hB)
        · rfl
        · exact absurd (show c.d0 + c.d1 + c.d2 ≤ x from hj.1) (not_le.mpr hC)
      · refine ⟨3, ⟨show c.d0 + c.d1 + c.d2 ≤ x from hC,
          show x < c.d0 + c.d1 + c.d2 + c.d3 by linarith⟩, ?_⟩
        intro j hj
        fin_cases j
        · exact absurd (show x < 0 + c.d0 from hj.2) (not_lt.mpr (by linarith))
        · exact absurd (show x < c.d0 + c.d1 from hj.2) (not_lt.mpr (by linarith))
        · exact absurd (show x < c.d0 + c.d1 + c.d2 from hj.2) (not_lt.mpr hC)
        · rfl

/-- C4: for a breath cycle of non-negative durations with positive total,
`is_phase_active(i, t)` is true exactly when `t` taken modulo the total falls
in the half-open interval `[start_i, start_i + d_i)`; consequently the four
phases partition `[0, total)` into 4 disjoint half-open intervals covering the
full range, and for any time exactly one phase is active.  For a cycle with
total 0, `is_phase_active` is false for every phase and every time. -/
theorem is_phase_active_partition (b : BouncyBall)
    (h0 : 0 ≤ b.phase_durations.d0) (h1 : 0 ≤ b.phase_durations.d1)
    (h2 : 0 ≤ b.phase_durations.d2) (h3 : 0 ≤ b.phase_durations.d3) :
    (0 < b.phase_durations.total →
      (∀ (i : Fin 4) (t : ℚ), b.is_phase_active i t = true ↔
        (b.phase_durations.start i ≤ pymod t b.phase_durations.total ∧
          pymod t b.phase_durations.total <
            b.phase_durations.start i + b.phase_durations.dur i)) ∧
      (∀ x : ℚ, 0 ≤ x → x < b.phase_durations.total →
        ∃! i : Fin 4, b.phase_durations.start i ≤ x ∧
          x < b.phase_durations.start i + b.phase_durations.dur i) ∧
      (∀ t : ℚ, ∃! i : Fin 4, b.is_phase_active i t = true)) ∧
    (b.phase_durations.total = 0 →
      ∀ (i : Fin 4) (t : ℚ), b.is_phase_active i t = false) := by
  constructor
  · intro htot
    have hne : b.phase_durations.total ≠ 0 := ne_of_gt htot
    have hiff : ∀ (i : Fin 4) (t : ℚ), b.is_phase_active i t = true ↔
        (b.phase_durations.start i ≤ pymod t b.phase_durations.total ∧
          pymod t b.phase_durations.total <
            b.phase_durations.start i + b.phase_durations.dur i) := by
      intro i t
      unfold BouncyBall.is_phase_active
      rw [if_neg hne]
      exact decide_eq_true_iff
    refine ⟨hiff, fun x hx0 hxt => breath_cycle_partition _ h0 h1 h2 h3 x hx0 hxt, ?_⟩
    intro t
    obtain ⟨i, hi, huniq⟩ := breath_cycle_partition _ h0 h1 h2 h3
      (pymod t b.phase_durations.total)
      (pymod_nonneg t _ htot) (pymod_lt t _ htot)
    exact ⟨i, (hiff i t).mpr hi, fun j hj => huniq j ((hiff j t).mp hj)⟩
  · intro hz i t
    unfold BouncyBall.is_phase_active
    rw [if_pos hz]

/-- Witness for C4 at the fresh animation (durations `(4,4,4,4)`, total 16). -/
theorem is_phase_active_partition_witness :
    (0 ≤ BouncyBall.init.phase_durations.d0 ∧
      0 ≤ BouncyBall.init.phase_durations.d1 ∧
      0 ≤ BouncyBall.init.phase_durations.d2 ∧
      0 ≤ BouncyBall.init.phase_durations.d3) ∧
    ((0 < BouncyBall.init.phase_durations.total →
      (∀ (i : Fin 4) (t : ℚ), BouncyBall.init.is_phase_active i t = true ↔
        (BouncyBall.init.phase_durations.start i ≤
            pymod t BouncyBall.init.phase_durations.total ∧
          pymod t BouncyBall.init.phase_durations.total <
            BouncyBall.init.phase_durations.start i +
              BouncyBall.init.phase_durations.dur i)) ∧
      (∀ x : ℚ, 0 ≤ x → x < BouncyBall.init.phase_durations.total →
        ∃! i : Fin 4, BouncyBall.init.phase_durations.start i ≤ x ∧
          x < BouncyBall.init.phase_durations.start i +
            BouncyBall.init.phase_durations.dur i) ∧
      (∀ t : ℚ, ∃! i : Fin 4, BouncyBall.init.is_phase_active i t = true)) ∧
    (BouncyBall.init.phase_durations.total = 0 →
      ∀ (i : Fin 4) (t : ℚ), BouncyBall.init.is_phase_active i t = false)) := by
  have hd : (0 ≤ BouncyBall.init.phase_durations.d0 ∧
      0 ≤ BouncyBall.init.phase_durations.d1 ∧
      0 ≤ BouncyBall.init.phase_durations.d2 ∧
      0 ≤ BouncyBall.init.phase_durations.d3) := by
    norm_num [BouncyBall.init]
  exact ⟨hd, is_phase_active_partition BouncyBall.init hd.1 hd.2.1 hd.2.2.1 hd.2.2.2⟩

theorem create_pipeline_error_cases (bk : Backend) (s : AudioStimulus) :
    (s.create_pipeline bk).2 = none ∨
    (s.create_pipeline bk).2 = some "Failed to create GStreamer elements" := by
  unfold AudioStimulus.create_pipeline
  dsimp only
  split
  · exact Or.inr rfl
  · exact Or.inl rfl

/-- C2 (amended): when audio-graph construction fails during `play()`,
`_create_pipeline` does raise a `RuntimeError`, but `play()`'s own
`except (RuntimeError, GLib.Error)` catches it: nothing escapes to the caller,
`is_playing` stays false, and the failure is only logged
("Error starting audio stream: ...").  Other runtime property-application
failures are likewise non-fatal, logged, and swallowed. -/
theorem play_construction_failure_logged_not_raised (bk : Backend)
    (s : AudioStimulus) (hp : s.is_playing = false) (hpipe : s.pipeline = false)
    (hfail : (s.create_pipeline bk).2 ≠ none) :
    (AudioStimulus.play bk s).2.2 = none ∧
    (AudioStimulus.play bk s).1.is_playing = false ∧
    (AudioStimulus.play bk s).2.1 =
      [AudioEffect.log
        "Error starting audio stream: Failed to create GStreamer elements"] := by
  have herr := (create_pipeline_error_cases bk s).resolve_left hfail
  rcases hc : s.create_pipeline bk with ⟨s1, e⟩
  rw [hc] at herr
  dsimp only at herr
  subst herr
  have hplay1 : (s.create_pipeline bk).1.is_playing = s.is_playing := by
    unfold AudioStimulus.create_pipeline
    dsimp only
    split <;> rfl
  unfold AudioStimulus.play
  simp [hp, hpipe, hc]
  rw [show s1 = (s.create_pipeline bk).1 by rw [hc]]
  rw [hplay1, hp]

theorem stop_animation_time (v : VisualStimulus) :
    (VisualStimulus.stop_animation v).time = v.time := by
  unfold VisualStimulus.stop_animation
  split <;> rfl

theorem stop_animation_is_playing (v : VisualStimulus) :
    (VisualStimulus.stop_animation v).is_playing = v.is_playing := by
  unfold VisualStimulus.stop_animation
  split <;> rfl

theorem stop_animation_clears (v : VisualStimulus)
    (hsrc : v.animation_source ≠ some 0) :
    (VisualStimulus.stop_animation v).animation_source = none := by
  unfold VisualStimulus.stop_animation
  rcases hs : v.animation_source with _ | i
  · simp [hs]
  · have hi : i ≠ 0 := fun h0 => hsrc (by rw [hs, h0])
    simp [hs, hi]

theorem play_time_invariant (v : VisualStimulus) (now : ℚ) (fresh : ℕ) :
    (v.play now fresh).time = v.time := by
  unfold VisualStimulus.play VisualStimulus.start_animation
  dsimp only
  split
  · split
    · split <;> rfl
    · rfl
  · rfl

/-- C10: pausing the visual stimulus while playing resets the accumulated
animation time to 0.0 and stops the tick timer, so a subsequent `play`
resumes the breath cycle from accumulated time 0 (the cycle beginning); and
`stop` resets the accumulated time the same way. -/
theorem visual_pause_resets_accumulated_time (v : VisualStimulus)
    (h : v.is_playing = true) (hsrc : v.animation_source ≠ some 0)
    (now : ℚ) (fresh : ℕ) :
    v.pause.time = 0 ∧ v.pause.animation_source = none ∧
    v.pause.is_playing = false ∧ (v.pause.play now fresh).time = 0 ∧
    v.stop.time = 0 ∧ v.stop.animation_source = none := by
  have hpause : v.pause = VisualStimulus.stop_animation
      { v with is_playing := false, time := 0 } := by
    unfold VisualStimulus.pause
    rw [if_pos h]
  have hstop : v.stop = VisualStimulus.stop_animation
      { v with is_playing := false, time := 0 } := rfl
  refine ⟨?_, ?_, ?_, ?_, ?_, ?_⟩
  · rw [hpause, stop_animation_time]
  · rw [hpause]
    exact stop_animation_clears _ hsrc
  · rw [hpause, stop_animation_is_playing]
  · rw [play_time_invariant, hpause, stop_animation_time]
  · rw [hstop, stop_animation_time]
  · rw [hstop]
    exact stop_animation_clears _ hsrc

/-- Witness for C10: a playing visual stimulus with a live tick timer
(source id 7) and 3.5 s of accumulated time. -/
theorem visual_pause_resets_accumulated_time_witness :
    ((⟨true, 0, true, some 7, true, none, true, 7/2⟩ : VisualStimulus).is_playing = true ∧
     (⟨true, 0, true, some 7, true, none, true, 7/2⟩ : VisualStimulus).animation_source ≠ some 0) ∧
    ((⟨true, 0, true, some 7, true, none, true, 7/2⟩ : VisualStimulus).pause.time = 0 ∧
     (⟨true, 0, true, some 7, true, none, true, 7/2⟩ : VisualStimulus).pause.animation_source = none ∧
     (⟨true, 0, true, some 7, true, none, true, 7/2⟩ : VisualStimulus).pause.is_playing = false ∧
     ((⟨true, 0, true, some 7, true, none, true, 7/2⟩ : VisualStimulus).pause.play 9 11).time = 0 ∧
     (⟨true, 0, true, some 7, true, none, true, 7/2⟩ : VisualStimulus).stop.time = 0 ∧
     (⟨true, 0, true, some 7, true, none, true, 7/2⟩ : VisualStimulus).stop.animation_source = none) :=
  ⟨⟨rfl, by decide⟩,
    visual_pause_resets_accumulated_time _ rfl (by decide) 9 11⟩

/-- Witness for C2's amended claim: a fresh `AudioStimulus` on a system whose
`audiomixer` element factory is unavailable. -/
theorem play_construction_failure_logged_not_raised_witness :
    (AudioStimulus.init.is_playing = false ∧ AudioStimulus.init.pipeline = false ∧
     (AudioStimulus.init.create_pipeline backend_no_mixer).2 ≠ none) ∧
    ((AudioStimulus.play backend_no_mixer AudioStimulus.init).2.2 = none ∧
     (AudioStimulus.play backend_no_mixer AudioStimulus.init).1.is_playing = false ∧
     (AudioStimulus.play backend_no_mixer AudioStimulus.init).2.1 =
       [AudioEffect.log
         "Error starting audio stream: Failed to create GStreamer elements"]) :=
  ⟨⟨rfl, rfl, by decide⟩,
    play_construction_failure_logged_not_raised backend_no_mixer AudioStimulus.init
      rfl rfl (by decide)⟩

theorem timer_consistent_len (sys : AudioSys)
    (h : AudioSys.timer_consistent sys) : sys.timers.pending.length ≤ 1 := by
  rcases h with ⟨_, hp⟩ | ⟨i, _, hp⟩ <;> simp [hp]

theorem step_set_spec (sys : AudioSys) (e : FreqEvent)
    (h : AudioSys.timer_consistent sys) :
    (∃ i, (sys.step_set e).st.update_timeout_id = some i ∧
      (sys.step_set e).timers.pending = [i]) ∧
    (sys.step_set e).st.pending_frequency_update = true ∧
    (sys.step_set e).st.source_left = sys.st.source_left ∧
    (sys.step_set e).st.source_right = sys.st.source_right := by
  rcases h with ⟨hn, hp⟩ | ⟨i, hi, hp⟩
  · cases e <;> simp [AudioSys.step_set, AudioSys.schedule_frequency_update, hn, hp]
  · cases e <;> simp [AudioSys.step_set, AudioSys.schedule_frequency_update, hi, hp]

theorem run_sets_spec (es : List FreqEvent) : ∀ sys : AudioSys,
    AudioSys.timer_consistent sys →
    AudioSys.timer_consistent (sys.run_sets es) ∧
    (sys.run_sets es).st.source_left = sys.st.source_left ∧
    (sys.run_sets es).st.source_right = sys.st.source_right ∧
    (es ≠ [] → (sys.run_sets es).st.pending_frequency_update = true ∧
      ∃ i, (sys.run_sets es).st.update_timeout_id = some i ∧
        (sys.run_sets es).timers.pending = [i]) := by
  induction es with
  | nil =>
    intro sys h
    exact ⟨h, rfl, rfl, fun hne => absurd rfl hne⟩
  | cons e rest ih =>
    intro sys h
    have hstep := step_set_spec sys e h
    have hcons : AudioSys.timer_consistent (sys.step_set e) := Or.inr hstep.1
    have hrest := ih (sys.step_set e) hcons
    have hrun : sys.run_sets (e :: rest) = (sys.step_set e).run_sets rest := rfl
    rw [hrun]
    refine ⟨hrest.1, hrest.2.1.trans hstep.2.2.1, hrest.2.2.1.trans hstep.2.2.2, ?_⟩
    intro _
    cases rest with
    | nil => exact ⟨hstep.2.1, hstep.1⟩
    | cons e2 r2 => exact hrest.2.2.2 (by simp)

theorem fire_timer_spec (bk : Backend) (sys : AudioSys)
    (hpend : sys.st.pending_frequency_update = true)
    (hl : sys.st.source_left = true) (hr : sys.st.source_right = true)
    (hok : bk.freq_set_ok = true)
    (i : ℕ) (hp : sys.timers.pending = [i]) :
    freq_sets (sys.fire_timer bk).2 =
      [(Chan.left, sys.st.base_frequency),
       (Chan.right, sys.st.base_frequency + sys.st.channel_offset)] ∧
    (sys.fire_timer bk).1.timers.pending = [] ∧
    (sys.fire_timer bk).1.st.pending_frequency_update = false := by
  unfold AudioSys.fire_timer
  rw [hp]
  unfold AudioStimulus.apply_frequency_update
  rw [if_neg (by simp [hpend, hl, hr])]
  dsimp only
  cases hplay : sys.st.is_playing <;> simp [hplay, hok, freq_sets]

/-- C3: for every nonempty burst of `set_base_frequency` / `set_channel_offset`
calls within one debounce window, each call restarts the single pending timer
(never more than one timeout is scheduled at any prefix of the burst), and
when the timer then fires, exactly one application reaches the audio backend:
left oscillator = final stored base frequency, right oscillator = final
stored base frequency + final stored channel offset; afterwards no timer and
no pending update remain. -/
theorem frequency_debounce_single_application (bk : Backend)
    (s0 : AudioStimulus) (g0 : GlibTimers) (es : List FreqEvent) (hne : es ≠ [])
    (hl : s0.source_left = true) (hr : s0.source_right = true)
    (hok : bk.freq_set_ok = true) (hid : s0.update_timeout_id = none)
    (hg : g0.pending = []) :
    freq_sets ((AudioSys.mk s0 g0).run_sets es |>.fire_timer bk).2 =
      [(Chan.left, ((AudioSys.mk s0 g0).run_sets es).st.base_frequency),
       (Chan.right, ((AudioSys.mk s0 g0).run_sets es).st.base_frequency +
         ((AudioSys.mk s0 g0).run_sets es).st.channel_offset)] ∧
    (∀ n : ℕ, ((AudioSys.mk s0 g0).run_sets (es.take n)).timers.pending.length ≤ 1) ∧
    ((AudioSys.mk s0 g0).run_sets es |>.fire_timer bk).1.timers.pending = [] ∧
    ((AudioSys.mk s0 g0).run_sets es |>.fire_timer bk).1.st.pending_frequency_update
      = false := by
  have hcons0 : AudioSys.timer_consistent (AudioSys.mk s0 g0) := Or.inl ⟨hid, hg⟩
  have hspec := run_sets_spec es (AudioSys.mk s0 g0) hcons0
  obtain ⟨hpend, i, _, hpi⟩ := hspec.2.2.2 hne
  have hfire := fire_timer_spec bk _ hpend
    (hspec.2.1.trans hl) (hspec.2.2.1.trans hr) hok i hpi
  exact ⟨hfire.1, fun n => timer_consistent_len _
    (run_sets_spec (es.take n) (AudioSys.mk s0 g0) hcons0).1,
    hfire.2.1, hfire.2.2⟩

/-- Witness for C3: starting from a playing `AudioStimulus` with a fully
constructed pipeline, the burst sets base to 150 and offset to 30; one timer
expiry then applies left = 150 and right = 150 + 30 = 180. -/
theorem frequency_debounce_single_application_witness :
    (([FreqEvent.setBase 150, FreqEvent.setOffset 30] : List FreqEvent) ≠ [] ∧
     (AudioStimulus.play backend_ok AudioStimulus.init).1.source_left = true ∧
     (AudioStimulus.play backend_ok AudioStimulus.init).1.source_right = true ∧
     backend_ok.freq_set_ok = true ∧
     (AudioStimulus.play backend_ok AudioStimulus.init).1.update_timeout_id = none ∧
     GlibTimers.init.pending = []) ∧
    (freq_sets ((AudioSys.mk (AudioStimulus.play backend_ok AudioStimulus.init).1
          GlibTimers.init).run_sets [FreqEvent.setBase 150, FreqEvent.setOffset 30]
        |>.fire_timer backend_ok).2 =
      [(Chan.left, ((AudioSys.mk (AudioStimulus.play backend_ok AudioStimulus.init).1
          GlibTimers.init).run_sets
            [FreqEvent.setBase 150, FreqEvent.setOffset 30]).st.base_frequency),
       (Chan.right, ((AudioSys.mk (AudioStimulus.play backend_ok AudioStimulus.init).1
          GlibTimers.init).run_sets
            [FreqEvent.setBase 150, FreqEvent.setOffset 30]).st.base_frequency +
         ((AudioSys.mk (AudioStimulus.play backend_ok AudioStimulus.init).1
          GlibTimers.init).run_sets
            [FreqEvent.setBase 150, FreqEvent.setOffset 30]).st.channel_offset)] ∧
     (∀ n : ℕ, ((AudioSys.mk (AudioStimulus.play backend_ok AudioStimulus.init).1
          GlibTimers.init).run_sets
            (([FreqEvent.setBase 150, FreqEvent.setOffset 30]).take n)).timers.pending.length ≤ 1) ∧
     ((AudioSys.mk (AudioStimulus.play backend_ok AudioStimulus.init).1
          GlibTimers.init).run_sets [FreqEvent.setBase 150, FreqEvent.setOffset 30]
        |>.fire_timer backend_ok).1.timers.pending = [] ∧
     ((AudioSys.mk (AudioStimulus.play backend_ok AudioStimulus.init).1
          GlibTimers.init).run_sets [FreqEvent.setBase 150, FreqEvent.setOffset 30]
        |>.fire_timer backend_ok).1.st.pending_frequency_update = false) :=
  ⟨⟨by decide, by decide, by decide, rfl, by decide, rfl⟩,
    frequency_debounce_single_application backend_ok
      (AudioStimulus.play backend_ok AudioStimulus.init).1 GlibTimers.init
      [FreqEvent.setBase 150, FreqEvent.setOffset 30]
      (by decide) (by decide) (by decide) rfl (by decide) rfl⟩
